import Mathlib

/-!
Verification development for two components of the terraform-provider-azurerm
excerpt:

1. the generated resource-ID parser/formatter for the MedTech service
   (`parse` package: `MedTechServiceId`, `NewMedTechServiceID`,
   `MedTechServiceId.ID`, `MedTechServiceID`), and
2. the `azurerm_app_service_connection` Terraform resource
   (`serviceconnector` package: schema plus Create/Read/Update/Delete of
   `AppServiceConnectorResource`).

Go strings are embedded as Lean `String`, Go `nil`-able pointers and
interface values as `Option`, Go `(value, error)` pairs as `Except` /
`Option` of the error, and each CRUD closure as a pure function from its
decoded inputs and the responses of the (external) HTTP client to an
explicit outcome record that captures the request objects the closure
hands to the client, the resource ID it records in state, and the error
it returns.
-/

/-! ## Part 1: resource ID parser/formatter for the MedTech service (package `parse`) -/

/-- The `MedTechServiceId` struct of the `parse` package: the four captured
segment values of the MedTech service resource ID. -/
structure MedTechServiceId where
  SubscriptionId : String
  ResourceGroup : String
  WorkspaceName : String
  IotconnectorName : String
deriving DecidableEq, Repr

/-- `NewMedTechServiceID` constructs a `MedTechServiceId` from the four
segment values, in the order subscription, resource group, workspace,
iotconnector. -/
def NewMedTechServiceID (subscriptionId resourceGroup workspaceName iotconnectorName : String) :
    MedTechServiceId :=
  { SubscriptionId := subscriptionId
    ResourceGroup := resourceGroup
    WorkspaceName := workspaceName
    IotconnectorName := iotconnectorName }

/-- The fixed URI template with the six literal segment keys and the four
segment values substituted in order (a rendering of the format string
`/subscriptions/%s/resourceGroups/%s/providers/Microsoft.HealthcareApis/workspaces/%s/iotconnectors/%s`
with the literal keys abstracted as well, which lets the case-sensitivity
property quantify over the keys). -/
def templateId (l1 v1 l2 v2 l3 l4 l5 v3 l6 v4 : String) : String :=
  "/" ++ l1 ++ "/" ++ v1 ++ "/" ++ l2 ++ "/" ++ v2 ++ "/" ++ l3 ++ "/" ++ l4 ++ "/" ++ l5 ++
    "/" ++ v3 ++ "/" ++ l6 ++ "/" ++ v4

/-- Modelled from the spec: the generated formatter `MedTechServiceId.ID()`
is outside this excerpt (only its test `TestMedTechServiceIDFormatter` is in
it); per the spec its contract is to print the fixed URI template with the
four field values substituted in order. The theorem for the formatter claim
pins this definition against the exact expected output string of that
test. -/
def MedTechServiceId.ID (id : MedTechServiceId) : String :=
  templateId "subscriptions" id.SubscriptionId "resourceGroups" id.ResourceGroup "providers"
    "Microsoft.HealthcareApis" "workspaces" id.WorkspaceName "iotconnectors" id.IotconnectorName

/-- Split a character list at every `'/'` (the separators are consumed; an
empty run between two separators yields an empty segment), mirroring the
path-segment decomposition of an Azure resource ID. -/
def splitSeg : List Char → List (List Char)
  | [] => [[]]
  | c :: cs =>
    if c = '/' then [] :: splitSeg cs
    else (c :: (splitSeg cs).headD []) :: (splitSeg cs).tail

/-- Modelled from the spec: the generated parser `MedTechServiceID` is
outside this excerpt (only its test `TestMedTechServiceID` is in it). Per
the spec it is "a mechanically generated string-template matcher
(segment-by-segment path matching with case-sensitive literal comparison)":
the input must decompose into exactly the eleven path segments of the
template, with an empty leading segment (the leading `/`), the six literal
segment keys compared case-sensitively, and a non-empty value for each of
the four captured segments (a missing value is malformed, as in the
"missing value for ..." rows of the test). Success is `some`, an error is
`none`. -/
def MedTechServiceID (input : String) : Option MedTechServiceId :=
  match splitSeg input.data with
  | [[], l1, v1, l2, v2, l3, l4, l5, v3, l6, v4] =>
    if l1 = "subscriptions".data ∧ l2 = "resourceGroups".data ∧ l3 = "providers".data ∧
        l4 = "Microsoft.HealthcareApis".data ∧ l5 = "workspaces".data ∧
        l6 = "iotconnectors".data ∧ v1 ≠ [] ∧ v2 ≠ [] ∧ v3 ≠ [] ∧ v4 ≠ [] then
      some (NewMedTechServiceID (String.mk v1) (String.mk v2) (String.mk v3) (String.mk v4))
    else none
  | _ => none

/-! ## Part 2: the `azurerm_app_service_connection` resource
(`service_connector_app_service_resource.go`) -/

/-- The `authentication` block model type `AuthInfoModel` is declared in a
file of the repository outside this excerpt (`authInfoSchema`); the claims
treat authentication blocks as opaque data, so it is embedded as a token
type. -/
structure AuthInfoModel where
  tag : Nat
deriving DecidableEq, Repr

/-- `servicelinker.AuthInfoBase`, the SDK type of a fully expanded
authentication payload, treated as a token type (the claims treat it
opaquely through `expandServiceConnectorAuthInfo` /
`flattenServiceConnectorAuthInfo`). -/
structure AuthInfoBase where
  tag : Nat
deriving DecidableEq, Repr

/-- The dynamic content of the (interface-typed, hence untyped) `AuthInfo`
field of the SDK `LinkerProperties` struct: it can hold a proper
`AuthInfoBase` payload (what `Create` stores after expansion) or a raw
`[]AuthInfoModel` Terraform configuration slice (what `Update` stores at
line 260 of the resource file, without expansion). -/
inductive AuthInfoValue where
  | base (a : AuthInfoBase)
  | rawModels (l : List AuthInfoModel)
deriving DecidableEq, Repr

/-- `servicelinker.AzureResource` (its `Id *string` field). -/
structure AzureResource where
  Id : Option String
deriving DecidableEq, Repr

/-- The SDK interface type `TargetServiceBase`: `Create` stores an
`AzureResource`; a `LinkerGet` response may carry another target-service
kind, kept abstract. -/
inductive TargetServiceBase where
  | azureResource (r : AzureResource)
  | otherTarget (tag : Nat)
deriving DecidableEq, Repr

/-- `servicelinker.VNetSolution` / `links.VNetSolution` (its
`Type *VNetSolutionType` field; the `VNetSolutionType` string enum is
embedded as `String`). -/
structure VNetSolution where
  Type' : Option String
deriving DecidableEq, Repr

/-- `servicelinker.LinkerProperties` / `links.LinkerProperties` (the two
generated SDK packages declare identical shapes): the fields the resource
reads or writes. -/
structure LinkerProperties where
  AuthInfo : Option AuthInfoValue
  ClientType : Option String
  TargetService : Option TargetServiceBase
  VNetSolution : Option VNetSolution
deriving DecidableEq, Repr

/-- `servicelinker.LinkerResource`: the request body of
`LinkerCreateOrUpdate` and the model of a `LinkerGet` response. -/
structure LinkerResource where
  Id : Option String
  Name : Option String
  Properties : LinkerProperties
deriving DecidableEq, Repr

/-- `links.LinkerPatch`: the request body of `LinkerUpdate`
(`Properties *LinkerProperties`). -/
structure LinkerPatch where
  Properties : Option LinkerProperties
deriving DecidableEq, Repr

/-- `servicelinker.ScopedLinkerId` / `links.ScopedLinkerId`: the scoped
linker resource ID (resource URI of the scope plus linker name). -/
structure ScopedLinkerId where
  ResourceUri : String
  LinkerName : String
deriving DecidableEq, Repr

/-- `servicelinker.NewScopedLinkerID(resourceUri, linkerName)`. -/
def NewScopedLinkerID (resourceUri linkerName : String) : ScopedLinkerId :=
  { ResourceUri := resourceUri, LinkerName := linkerName }

/-- `ScopedLinkerId.ID()` from the SDK: the scope's resource URI followed by
the fixed linkers provider segment and the linker name. -/
def ScopedLinkerId.ID (id : ScopedLinkerId) : String :=
  id.ResourceUri ++ "/providers/Microsoft.ServiceLinker/linkers/" ++ id.LinkerName

/-- `AppServiceConnectorResourceModel`: the typed Terraform configuration of
the resource (tfschema fields `name`, `app_service_id`,
`target_resource_id`, `client_type`, `authentication`, `vnet_solution`). -/
structure AppServiceConnectorResourceModel where
  Name : String
  AppServiceId : String
  TargetResourceId : String
  ClientType : String
  AuthInfo : List AuthInfoModel
  VnetSolution : String
deriving DecidableEq, Repr

/-- The distinct error returns of `Create`, tagged by the `return` statement
that produced them (decode failure, the wrapped existence-check failure, the
`ResourceRequiresImport` error, the wrapped `expandServiceConnectorAuthInfo`
failure, the wrapped `LinkerCreateOrUpdate` failure). -/
inductive CreateError where
  | decodeError (e : String)
  | checkError (e : String)
  | requiresImport
  | expandError (e : String)
  | createError (e : String)
deriving DecidableEq, Repr

/-- What a run of the `Create` closure did: the error it returned (if any),
the `(id, LinkerResource)` pair it passed to `LinkerCreateOrUpdate` (if it
reached that call), and the ID it recorded in state with `metadata.SetID`
(if it reached that call). -/
structure CreateOutcome where
  err : Option CreateError
  createCall : Option (ScopedLinkerId × LinkerResource)
  stateId : Option ScopedLinkerId
deriving DecidableEq, Repr

/-- The `Create` closure of `AppServiceConnectorResource` (resource file
lines 98-158), with its environment passed explicitly:
`expandAuthInfo` is `expandServiceConnectorAuthInfo` (defined outside the
excerpt), `decoded` the result of `metadata.Decode`, `getErr` and
`getWasNotFound` the error of the existence-check `LinkerGet` and whether
`response.WasNotFound` holds of its HTTP response, and `createOrUpdateErr`
the error of `LinkerCreateOrUpdate`. -/
def appServiceConnectorCreate
    (expandAuthInfo : List AuthInfoModel → Except String AuthInfoBase)
    (decoded : Except String AppServiceConnectorResourceModel)
    (getErr : Option String) (getWasNotFound : Bool)
    (createOrUpdateErr : Option String) : CreateOutcome :=
  match decoded with
  | .error e => { err := some (.decodeError e), createCall := none, stateId := none }
  | .ok model =>
    let id := NewScopedLinkerID model.AppServiceId model.Name
    if getErr ≠ none ∧ getWasNotFound = false then
      { err := some (.checkError (getErr.getD "")), createCall := none, stateId := none }
    else if getWasNotFound = false then
      { err := some .requiresImport, createCall := none, stateId := none }
    else
      match expandAuthInfo model.AuthInfo with
      | .error e => { err := some (.expandError e), createCall := none, stateId := none }
      | .ok authInfo =>
        let serviceConnectorProperties : LinkerProperties :=
          { AuthInfo := some (.base authInfo)
            ClientType := if model.ClientType ≠ "" then some model.ClientType else none
            TargetService := some (.azureResource { Id := some model.TargetResourceId })
            VNetSolution :=
              if model.VnetSolution ≠ "" then some { Type' := some model.VnetSolution }
              else none }
        let props : LinkerResource :=
          { Id := some id.ID, Name := some model.Name,
            Properties := serviceConnectorProperties }
        match createOrUpdateErr with
        | some e =>
          { err := some (.createError e), createCall := some (id, props), stateId := none }
        | none => { err := none, createCall := some (id, props), stateId := some id }

/-- What a run of the `Read` closure did: returned the ID-parse error,
marked the resource as gone, returned the wrapped `LinkerGet` error, or
finished (with the state it encoded, `none` when it returned without
encoding because the response model or its `AuthInfo`/`TargetService` were
missing). -/
inductive ReadOutcome where
  | errParse (e : String)
  | markedGone (id : ScopedLinkerId)
  | errRead (e : String)
  | done (encoded : Option AppServiceConnectorResourceModel)
deriving DecidableEq, Repr

/-- The `Read` closure of `AppServiceConnectorResource` (resource file lines
160-204), with its environment passed explicitly: `flattenTargetService` and
`flattenAuthInfo` are the flatten helpers defined outside the excerpt,
`parsed` the result of `servicelinker.ParseScopedLinkerID` on the stored
resource ID, `getErr`/`getWasNotFound` the `LinkerGet` error and its
not-found status, and `respModel` the response's `Model` pointer. -/
def appServiceConnectorRead
    (flattenTargetService : TargetServiceBase → String)
    (flattenAuthInfo : AuthInfoValue → List AuthInfoModel)
    (parsed : Except String ScopedLinkerId)
    (getErr : Option String) (getWasNotFound : Bool)
    (respModel : Option LinkerResource) : ReadOutcome :=
  match parsed with
  | .error e => .errParse e
  | .ok id =>
    match getErr with
    | some e => if getWasNotFound then .markedGone id else .errRead e
    | none =>
      match respModel with
      | some model =>
        let props := model.Properties
        match props.AuthInfo, props.TargetService with
        | some authInfo, some targetService =>
          let state : AppServiceConnectorResourceModel :=
            { Name := id.LinkerName
              AppServiceId := id.ResourceUri
              TargetResourceId := flattenTargetService targetService
              ClientType := match props.ClientType with | some c => c | none => ""
              AuthInfo := flattenAuthInfo authInfo
              VnetSolution :=
                match props.VNetSolution with
                | some v => match v.Type' with | some t => t | none => ""
                | none => "" }
          .done (some state)
        | _, _ => .done none
      | none => .done none

/-- The distinct error returns of `Update` (ID-parse failure returned as-is,
decode failure, wrapped `LinkerUpdate` failure). -/
inductive UpdateError where
  | parseError (e : String)
  | decodeError (e : String)
  | updateError (e : String)
deriving DecidableEq, Repr

/-- What a run of the `Update` closure did: the error it returned (if any)
and the `(id, LinkerPatch)` pair it passed to `LinkerUpdate` (if it reached
that call). -/
structure UpdateOutcome where
  err : Option UpdateError
  updateCall : Option (ScopedLinkerId × LinkerPatch)
deriving DecidableEq, Repr

/-- The `Update` closure of `AppServiceConnectorResource` (resource file
lines 228-273): starting from a zero-valued `links.LinkerProperties`, for
each of `client_type`, `vnet_solution` and `authentication` whose
`HasChange` flag is set it stores the corresponding decoded state value in
the patch; note that for `authentication` it stores the raw
`state.AuthInfo` slice itself (line 260), not the result of
`expandServiceConnectorAuthInfo`. -/
def appServiceConnectorUpdate
    (parsed : Except String ScopedLinkerId)
    (decoded : Except String AppServiceConnectorResourceModel)
    (hasChangeClientType hasChangeVnetSolution hasChangeAuthentication : Bool)
    (linkerUpdateErr : Option String) : UpdateOutcome :=
  match parsed with
  | .error e => { err := some (.parseError e), updateCall := none }
  | .ok id =>
    match decoded with
    | .error e => { err := some (.decodeError e), updateCall := none }
    | .ok state =>
      let linkerProps : LinkerProperties :=
        { AuthInfo := none, ClientType := none, TargetService := none, VNetSolution := none }
      let linkerProps :=
        if hasChangeClientType then { linkerProps with ClientType := some state.ClientType }
        else linkerProps
      let linkerProps :=
        if hasChangeVnetSolution then
          { linkerProps with VNetSolution := some { Type' := some state.VnetSolution } }
        else linkerProps
      let linkerProps :=
        if hasChangeAuthentication then
          { linkerProps with AuthInfo := some (.rawModels state.AuthInfo) }
        else linkerProps
      let props : LinkerPatch := { Properties := some linkerProps }
      match linkerUpdateErr with
      | some e => { err := some (.updateError e), updateCall := some (id, props) }
      | none => { err := none, updateCall := some (id, props) }

/-- The distinct error returns of `Delete` (ID-parse failure returned as-is,
wrapped `LinkerDelete` failure). -/
inductive DeleteError where
  | parseError (e : String)
  | deleteError (e : String)
deriving DecidableEq, Repr

/-- The `Delete` closure of `AppServiceConnectorResource` (resource file
lines 206-226): parse the stored ID, call `LinkerDelete`, and swallow its
error exactly when the response was not-found. Returns the error, `none` on
success. -/
def appServiceConnectorDelete
    (parsed : Except String ScopedLinkerId)
    (deleteErr : Option String) (deleteWasNotFound : Bool) : Option DeleteError :=
  match parsed with
  | .error e => some (.parseError e)
  | .ok _ =>
    match deleteErr with
    | some e => if deleteWasNotFound then none else some (.deleteError e)
    | none => none

/-- SDK string constant `servicelinker.ClientTypeNone`. -/
def ClientTypeNone : String := "none"

/-- SDK string constant `servicelinker.ClientTypeDotnet`. -/
def ClientTypeDotnet : String := "dotnet"

/-- SDK string constant `servicelinker.ClientTypeJava`. -/
def ClientTypeJava : String := "java"

/-- SDK string constant `servicelinker.ClientTypePython`. -/
def ClientTypePython : String := "python"

/-- SDK string constant `servicelinker.ClientTypeGo`. -/
def ClientTypeGo : String := "go"

/-- SDK string constant `servicelinker.ClientTypePhp`. -/
def ClientTypePhp : String := "php"

/-- SDK string constant `servicelinker.ClientTypeRuby`. -/
def ClientTypeRuby : String := "ruby"

/-- SDK string constant `servicelinker.ClientTypeDjango`. -/
def ClientTypeDjango : String := "django"

/-- SDK string constant `servicelinker.ClientTypeNodejs`. -/
def ClientTypeNodejs : String := "nodejs"

/-- SDK string constant `servicelinker.ClientTypeSpringBoot`. -/
def ClientTypeSpringBoot : String := "springBoot"

/-- SDK string constant `servicelinker.VNetSolutionTypeServiceEndpoint`. -/
def VNetSolutionTypeServiceEndpoint : String := "serviceEndpoint"

/-- SDK string constant `servicelinker.VNetSolutionTypePrivateLink`. -/
def VNetSolutionTypePrivateLink : String := "privateLink"

/-- A reference to the `ValidateFunc` installed on a schema field:
`validation.StringIsNotEmpty`, `validate.AppServiceID`,
`azure.ValidateResourceID`, or a `validation.StringInSlice(valid,
ignoreCase)` instance. -/
inductive ValidatorRef where
  | stringIsNotEmpty
  | appServiceID
  | validateResourceID
  | stringInSlice (valid : List String) (ignoreCase : Bool)
deriving DecidableEq, Repr

/-- The flags of one schema field declaration that the claims are about:
`Required`, `Optional`, `ForceNew`, `Default` and `ValidateFunc`. -/
structure SchemaEntry where
  Required : Bool
  Optional : Bool
  ForceNew : Bool
  Default : Option String
  ValidateFunc : Option ValidatorRef
deriving DecidableEq, Repr

/-- One entry of the `Arguments()` map: either a scalar field declaration or
the `authentication` entry, whose schema `authInfoSchema()` is defined
outside the excerpt. -/
inductive ArgumentSchema where
  | entry (e : SchemaEntry)
  | authInfoSchemaRef
deriving DecidableEq, Repr

/-- The semantics of the plugin SDK validator `validation.StringInSlice
(valid, ignoreCase)`: the candidate is accepted exactly when it equals an
element of `valid`, compared case-insensitively when `ignoreCase` is set. -/
def runStringInSlice (valid : List String) (ignoreCase : Bool) (s : String) : Bool :=
  valid.any fun v => v == s || (ignoreCase && (v.toLower == s.toLower))

/-- The semantics of the plugin SDK validator `validation.StringIsNotEmpty`:
the candidate is accepted exactly when it is not the empty string. -/
def runStringIsNotEmpty (s : String) : Bool :=
  if s = "" then false else true

/-- The `Arguments()` schema map of `AppServiceConnectorResource` (resource
file lines 31-84), keyed by field name. -/
def Arguments : String → Option ArgumentSchema := fun key =>
  if key = "name" then
    some (.entry
      { Required := true
        Optional := false
        ForceNew := true
        Default := none
        ValidateFunc := some .stringIsNotEmpty })
  else if key = "app_service_id" then
    some (.entry
      { Required := true
        Optional := false
        ForceNew := true
        Default := none
        ValidateFunc := some .appServiceID })
  else if key = "target_resource_id" then
    some (.entry
      { Required := true
        Optional := false
        ForceNew := true
        Default := none
        ValidateFunc := some .validateResourceID })
  else if key = "client_type" then
    some (.entry
      { Required := false
        Optional := true
        ForceNew := false
        Default := some ClientTypeNone
        ValidateFunc := some (.stringInSlice [ClientTypeNone, ClientTypeDotnet, ClientTypeJava,
          ClientTypePython, ClientTypeGo, ClientTypePhp, ClientTypeRuby, ClientTypeDjango,
          ClientTypeNodejs, ClientTypeSpringBoot] false) })
  else if key = "vnet_solution" then
    some (.entry
      { Required := false
        Optional := true
        ForceNew := false
        Default := some VNetSolutionTypePrivateLink
        ValidateFunc := some (.stringInSlice [VNetSolutionTypeServiceEndpoint,
          VNetSolutionTypePrivateLink] false) })
  else if key = "authentication" then some .authInfoSchemaRef
  else none

/-- Concrete expansion function for witnesses: always succeeds. -/
def cExpandOk : List AuthInfoModel → Except String AuthInfoBase := fun _ => Except.ok ⟨0⟩

/-- Concrete decoded configuration for witnesses. -/
def cModel : AppServiceConnectorResourceModel :=
  ⟨"conn", "appId", "target", "dotnet", [⟨7⟩], "privateLink"⟩

/-- Concrete target-service flattener for witnesses. -/
def cFlattenTS : TargetServiceBase → String := fun t =>
  match t with
  | .azureResource r => r.Id.getD ""
  | .otherTarget _ => ""

/-- Concrete auth-info flattener for witnesses. -/
def cFlattenAI : AuthInfoValue → List AuthInfoModel := fun _ => [⟨3⟩]

/-- Concrete `LinkerGet` response model for witnesses. -/
def cRespModel : LinkerResource :=
  ⟨some "x", some "conn",
    ⟨some (.base ⟨3⟩), some "java", some (.azureResource ⟨some "target"⟩),
      some ⟨some "serviceEndpoint"⟩⟩⟩

/-! ## Helper lemmas about `splitSeg` -/

theorem splitSeg_no_slash (xs : List Char) (h : '/' ∉ xs) : splitSeg xs = [xs] := by
  induction xs with
  | nil => rfl
  | cons c cs ih =>
    have hc : c ≠ '/' := fun hc => h (hc ▸ List.mem_cons_self c cs)
    have hcs : '/' ∉ cs := fun hm => h (List.mem_cons_of_mem c hm)
    simp [splitSeg, hc, ih hcs]

theorem splitSeg_append_slash (xs ys : List Char) (h : '/' ∉ xs) :
    splitSeg (xs ++ '/' :: ys) = xs :: splitSeg ys := by
  induction xs with
  | nil => simp [splitSeg]
  | cons c cs ih =>
    have hc : c ≠ '/' := fun hc => h (hc ▸ List.mem_cons_self c cs)
    have hcs : '/' ∉ cs := fun hm => h (List.mem_cons_of_mem c hm)
    simp [splitSeg, hc, ih hcs]

theorem data_templateId (l1 v1 l2 v2 l3 l4 l5 v3 l6 v4 : String) :
    (templateId l1 v1 l2 v2 l3 l4 l5 v3 l6 v4).data =
      '/' :: (l1.data ++ '/' :: (v1.data ++ '/' :: (l2.data ++ '/' :: (v2.data ++ '/' ::
        (l3.data ++ '/' :: (l4.data ++ '/' :: (l5.data ++ '/' :: (v3.data ++ '/' ::
          (l6.data ++ '/' :: v4.data)))))))))  := by
  simp [templateId, String.data_append]

theorem splitSeg_templateId (l1 v1 l2 v2 l3 l4 l5 v3 l6 v4 : String)
    (h1 : '/' ∉ l1.data) (h2 : '/' ∉ v1.data) (h3 : '/' ∉ l2.data) (h4 : '/' ∉ v2.data)
    (h5 : '/' ∉ l3.data) (h6 : '/' ∉ l4.data) (h7 : '/' ∉ l5.data) (h8 : '/' ∉ v3.data)
    (h9 : '/' ∉ l6.data) (h10 : '/' ∉ v4.data) :
    splitSeg (templateId l1 v1 l2 v2 l3 l4 l5 v3 l6 v4).data =
      [[], l1.data, v1.data, l2.data, v2.data, l3.data, l4.data, l5.data, v3.data, l6.data,
        v4.data] := by
  rw [data_templateId]
  show splitSeg ('/' :: _) = _
  rw [show ∀ t, splitSeg ('/' :: t) = [] :: splitSeg t from fun t => by simp [splitSeg]]
  rw [splitSeg_append_slash _ _ h1, splitSeg_append_slash _ _ h2, splitSeg_append_slash _ _ h3,
    splitSeg_append_slash _ _ h4, splitSeg_append_slash _ _ h5, splitSeg_append_slash _ _ h6,
    splitSeg_append_slash _ _ h7, splitSeg_append_slash _ _ h8, splitSeg_append_slash _ _ h9,
    splitSeg_no_slash _ h10]

theorem string_ne_empty_data_ne_nil {s : String} (h : s ≠ "") : s.data ≠ [] := by
  intro hd
  exact h (String.ext hd)

/-! ## Claims about the MedTech service ID parser/formatter -/

/-- C4: the formatter `ID()` of a `MedTechServiceId` produces exactly the fixed URI
template with the four field values substituted in order: on the inputs of
`TestMedTechServiceIDFormatter` it yields the expected string of that test. -/
theorem medTechServiceID_formatter :
    (NewMedTechServiceID "12345678-1234-9876-4563-123456789012" "group1" "workspace1"
      "iotconnector1").ID =
    "/subscriptions/12345678-1234-9876-4563-123456789012/resourceGroups/group1/providers/Microsoft.HealthcareApis/workspaces/workspace1/iotconnectors/iotconnector1" := by
  decide

/-- C1 (counterexample): the round-trip claim fails as stated, at the concrete input
`NewMedTechServiceID "" "group1" "workspace1" "iotconnector1"`: the formatted ID has an
empty `subscriptions` segment value, so parsing it returns an error (`none`) instead of
succeeding. -/
theorem medTechServiceID_roundtrip_counterexample :
    MedTechServiceID ((NewMedTechServiceID "" "group1" "workspace1" "iotconnector1").ID) =
      none := by
  decide

/-- C1 (amended): for every `MedTechServiceId` constructed by `NewMedTechServiceID` from
four arguments that are each non-empty and contain no `/` character, parsing the string
returned by `ID()` with `MedTechServiceID` succeeds and yields a value whose four fields
equal the four constructor arguments. -/
theorem medTechServiceID_roundtrip (s1 s2 s3 s4 : String)
    (h1 : s1 ≠ "" ∧ '/' ∉ s1.data) (h2 : s2 ≠ "" ∧ '/' ∉ s2.data)
    (h3 : s3 ≠ "" ∧ '/' ∉ s3.data) (h4 : s4 ≠ "" ∧ '/' ∉ s4.data) :
    MedTechServiceID ((NewMedTechServiceID s1 s2 s3 s4).ID) =
      some (NewMedTechServiceID s1 s2 s3 s4) := by
  simp only [MedTechServiceID, MedTechServiceId.ID, NewMedTechServiceID]
  rw [splitSeg_templateId "subscriptions" s1 "resourceGroups" s2 "providers"
    "Microsoft.HealthcareApis" "workspaces" s3 "iotconnectors" s4 (by decide) h1.2 (by decide)
    h2.2 (by decide) (by decide) (by decide) h3.2 (by decide) h4.2]
  exact if_pos ⟨rfl, rfl, rfl, rfl, rfl, rfl, string_ne_empty_data_ne_nil h1.1,
    string_ne_empty_data_ne_nil h2.1, string_ne_empty_data_ne_nil h3.1,
    string_ne_empty_data_ne_nil h4.1⟩

/-- C1 (witness): the round-trip theorem applied at the concrete input of the generated
test (`TestMedTechServiceID`, "valid" row). -/
theorem medTechServiceID_roundtrip_witness :
    MedTechServiceID ((NewMedTechServiceID "12345678-1234-9876-4563-123456789012" "group1"
        "workspace1" "iotconnector1").ID) =
      some (NewMedTechServiceID "12345678-1234-9876-4563-123456789012" "group1" "workspace1"
        "iotconnector1") :=
  medTechServiceID_roundtrip _ _ _ _ ⟨by decide, by decide⟩ ⟨by decide, by decide⟩
    ⟨by decide, by decide⟩ ⟨by decide, by decide⟩

/-- C2: the parser matches the URI template segment by segment with case-sensitive
comparison of the literal segment keys: for any slash-free literal segment keys
`l1 .. l6` that are not exactly `subscriptions`, `resourceGroups`, `providers`,
`Microsoft.HealthcareApis`, `workspaces`, `iotconnectors` (in particular any keys that
differ from them only in case), and any non-empty slash-free segment values, the parser
returns an error on the assembled input. -/
theorem medTechServiceID_rejects_wrong_keys (l1 l2 l3 l4 l5 l6 v1 v2 v3 v4 : String)
    (hl1 : '/' ∉ l1.data) (hl2 : '/' ∉ l2.data) (hl3 : '/' ∉ l3.data) (hl4 : '/' ∉ l4.data)
    (hl5 : '/' ∉ l5.data) (hl6 : '/' ∉ l6.data)
    (hv1 : '/' ∉ v1.data) (hv2 : '/' ∉ v2.data) (hv3 : '/' ∉ v3.data) (hv4 : '/' ∉ v4.data)
    (hne : ¬(l1 = "subscriptions" ∧ l2 = "resourceGroups" ∧ l3 = "providers" ∧
      l4 = "Microsoft.HealthcareApis" ∧ l5 = "workspaces" ∧ l6 = "iotconnectors")) :
    MedTechServiceID (templateId l1 v1 l2 v2 l3 l4 l5 v3 l6 v4) = none := by
  simp only [MedTechServiceID]
  rw [splitSeg_templateId _ _ _ _ _ _ _ _ _ _ hl1 hv1 hl2 hv2 hl3 hl4 hl5 hv3 hl6 hv4]
  exact if_neg fun hcond =>
    hne ⟨String.ext hcond.1, String.ext hcond.2.1, String.ext hcond.2.2.1,
      String.ext hcond.2.2.2.1, String.ext hcond.2.2.2.2.1, String.ext hcond.2.2.2.2.2.1⟩

/-- C2 (witness): the case-sensitivity theorem applied at the fully upper-cased input of
the generated test (`TestMedTechServiceID`, "upper-cased" row). -/
theorem medTechServiceID_rejects_wrong_keys_witness :
    MedTechServiceID "/SUBSCRIPTIONS/12345678-1234-9876-4563-123456789012/RESOURCEGROUPS/GROUP1/PROVIDERS/MICROSOFT.HEALTHCAREAPIS/WORKSPACES/WORKSPACE1/IOTCONNECTORS/IOTCONNECTOR1" = none := by
  have h := medTechServiceID_rejects_wrong_keys "SUBSCRIPTIONS" "RESOURCEGROUPS" "PROVIDERS"
    "MICROSOFT.HEALTHCAREAPIS" "WORKSPACES" "IOTCONNECTORS"
    "12345678-1234-9876-4563-123456789012" "GROUP1" "WORKSPACE1" "IOTCONNECTOR1"
    (by decide) (by decide) (by decide) (by decide) (by decide) (by decide)
    (by decide) (by decide) (by decide) (by decide) (by decide)
  have e : templateId "SUBSCRIPTIONS" "12345678-1234-9876-4563-123456789012" "RESOURCEGROUPS"
      "GROUP1" "PROVIDERS" "MICROSOFT.HEALTHCAREAPIS" "WORKSPACES" "WORKSPACE1" "IOTCONNECTORS"
      "IOTCONNECTOR1" =
      "/SUBSCRIPTIONS/12345678-1234-9876-4563-123456789012/RESOURCEGROUPS/GROUP1/PROVIDERS/MICROSOFT.HEALTHCAREAPIS/WORKSPACES/WORKSPACE1/IOTCONNECTORS/IOTCONNECTOR1" := by
    decide
  rw [e] at h
  exact h

/-- C3: the parser rejects each malformed strict prefix of the URI template listed in
`TestMedTechServiceID`: the empty string, `/`, and each longer prefix that stops before
a required segment key or before the value for `SubscriptionId`, `ResourceGroup`,
`WorkspaceName` or `IotconnectorName` — on all nine inputs it returns an error and no
`MedTechServiceId` value. -/
theorem medTechServiceID_rejects_malformed_prefixes :
    MedTechServiceID "" = none ∧
    MedTechServiceID "/" = none ∧
    MedTechServiceID "/subscriptions/" = none ∧
    MedTechServiceID "/subscriptions/12345678-1234-9876-4563-123456789012/" = none ∧
    MedTechServiceID "/subscriptions/12345678-1234-9876-4563-123456789012/resourceGroups/" =
      none ∧
    MedTechServiceID "/subscriptions/12345678-1234-9876-4563-123456789012/resourceGroups/group1/providers/Microsoft.HealthcareApis/" = none ∧
    MedTechServiceID "/subscriptions/12345678-1234-9876-4563-123456789012/resourceGroups/group1/providers/Microsoft.HealthcareApis/workspaces/" = none ∧
    MedTechServiceID "/subscriptions/12345678-1234-9876-4563-123456789012/resourceGroups/group1/providers/Microsoft.HealthcareApis/workspaces/workspace1/" = none ∧
    MedTechServiceID "/subscriptions/12345678-1234-9876-4563-123456789012/resourceGroups/group1/providers/Microsoft.HealthcareApis/workspaces/workspace1/iotconnectors/" = none := by
  decide

/-! ## Claims about the `azurerm_app_service_connection` resource -/

/-- C5: `Create` maps the decoded configuration field-by-field onto the
`LinkerResource` passed to `LinkerCreateOrUpdate`: for every decoded model,
successful expansion of the authentication blocks and successful run, the request's
`Id` is the scoped linker ID built from `app_service_id` and `name`, its `Name` is the
configured name, its `TargetService` is an `AzureResource` with `target_resource_id`,
its `AuthInfo` is the expansion result, and `ClientType` (respectively `VNetSolution`)
is set to the configured value exactly when `client_type` (respectively
`vnet_solution`) is non-empty and left unset otherwise; on success the resource ID
recorded in state is the scoped linker ID. -/
theorem create_maps_model
    (expandAuthInfo : List AuthInfoModel → Except String AuthInfoBase)
    (model : AppServiceConnectorResourceModel)
    (getErr : Option String) (getWasNotFound : Bool) (createOrUpdateErr : Option String)
    (authInfo : AuthInfoBase)
    (hexp : expandAuthInfo model.AuthInfo = Except.ok authInfo)
    (hok : (appServiceConnectorCreate expandAuthInfo (Except.ok model) getErr getWasNotFound
      createOrUpdateErr).err = none) :
    ∃ props : LinkerResource,
      (appServiceConnectorCreate expandAuthInfo (Except.ok model) getErr getWasNotFound
        createOrUpdateErr).createCall =
        some (NewScopedLinkerID model.AppServiceId model.Name, props) ∧
      props.Id = some (NewScopedLinkerID model.AppServiceId model.Name).ID ∧
      props.Name = some model.Name ∧
      props.Properties.TargetService =
        some (.azureResource { Id := some model.TargetResourceId }) ∧
      props.Properties.AuthInfo = some (.base authInfo) ∧
      (model.ClientType ≠ "" → props.Properties.ClientType = some model.ClientType) ∧
      (model.ClientType = "" → props.Properties.ClientType = none) ∧
      (model.VnetSolution ≠ "" →
        props.Properties.VNetSolution = some { Type' := some model.VnetSolution }) ∧
      (model.VnetSolution = "" → props.Properties.VNetSolution = none) ∧
      (appServiceConnectorCreate expandAuthInfo (Except.ok model) getErr getWasNotFound
        createOrUpdateErr).stateId = some (NewScopedLinkerID model.AppServiceId model.Name) := by
  cases getWasNotFound with
  | false =>
    exfalso
    rcases getErr with _ | e <;> simp [appServiceConnectorCreate] at hok
  | true =>
    simp only [appServiceConnectorCreate] at hok ⊢
    rw [hexp] at hok ⊢
    simp only [ne_eq, Bool.true_eq_false, and_false, if_false] at hok ⊢
    cases createOrUpdateErr with
    | some e => simp at hok
    | none =>
      refine ⟨_, rfl, rfl, rfl, rfl, rfl, ?_, ?_, ?_, ?_, rfl⟩
      · intro h; simp [h]
      · intro h; simp [h]
      · intro h; simp [h]
      · intro h; simp [h]

/-- C5 (witness): the mapping theorem applied at a concrete configuration, existence
check not-found and successful client calls; the recorded state ID is the scoped linker
ID built from `app_service_id` and `name`. -/
theorem create_maps_model_witness :
    (appServiceConnectorCreate cExpandOk (Except.ok cModel) none true none).stateId =
      some (NewScopedLinkerID "appId" "conn") := by
  obtain ⟨props, h⟩ := create_maps_model cExpandOk cModel none true none ⟨0⟩ rfl rfl
  exact h.2.2.2.2.2.2.2.2.2

/-- C9: `Create` is guarded against overwriting an existing remote resource: whenever
the existence-check `LinkerGet` response is not not-found, `Create` returns an error (a
resource-requires-import error when the lookup succeeded, the wrapped lookup error when
it failed) with no `LinkerCreateOrUpdate` call and no state ID recorded; and the
`LinkerCreateOrUpdate` call is reached only when the check reported not-found. -/
theorem create_requires_import_guard
    (expandAuthInfo : List AuthInfoModel → Except String AuthInfoBase)
    (model : AppServiceConnectorResourceModel)
    (getErr : Option String) (getWasNotFound : Bool) (createOrUpdateErr : Option String) :
    (getWasNotFound = false →
      appServiceConnectorCreate expandAuthInfo (Except.ok model) getErr getWasNotFound
        createOrUpdateErr =
        { err := some (match getErr with
            | some e => CreateError.checkError e
            | none => CreateError.requiresImport)
          createCall := none
          stateId := none }) ∧
    ((appServiceConnectorCreate expandAuthInfo (Except.ok model) getErr getWasNotFound
        createOrUpdateErr).createCall ≠ none → getWasNotFound = true) := by
  constructor
  · rintro rfl
    rcases getErr with _ | e <;> simp [appServiceConnectorCreate]
  · intro h
    cases getWasNotFound with
    | true => rfl
    | false =>
      exfalso
      apply h
      rcases getErr with _ | e <;> simp [appServiceConnectorCreate]

/-- C9 (witness): the guard theorem applied at a concrete failed existence check (error
`boom`, response not not-found): `Create` returns the wrapped lookup error and makes no
`LinkerCreateOrUpdate` call. -/
theorem create_requires_import_guard_witness :
    appServiceConnectorCreate cExpandOk (Except.ok cModel) (some "boom") false none =
      { err := some (CreateError.checkError "boom"), createCall := none, stateId := none } :=
  (create_requires_import_guard cExpandOk cModel (some "boom") false none).1 rfl

/-- C6 (code evaluated at the failing input): on an update where all three of
`client_type`, `vnet_solution` and `authentication` changed, the `LinkerPatch` passed
to `LinkerUpdate` carries the configured client type and vnet solution, but its
`AuthInfo` field holds the raw decoded `authentication` blocks
(`AuthInfoValue.rawModels`, from `linkerProps.AuthInfo = state.AuthInfo` at line 260)
rather than the expansion `expandServiceConnectorAuthInfo(state.AuthInfo)` that
`Create` (lines 119-134) would place there. -/
theorem update_auth_info_not_expanded :
    appServiceConnectorUpdate (Except.ok (NewScopedLinkerID "appId" "conn"))
      (Except.ok ⟨"conn", "appId", "target", "dotnet", [⟨7⟩], "privateLink"⟩)
      true true true none =
    { err := none
      updateCall := some (NewScopedLinkerID "appId" "conn",
        ⟨some ⟨some (AuthInfoValue.rawModels [⟨7⟩]), some "dotnet", none,
          some ⟨some "privateLink"⟩⟩⟩) } := by
  decide

/-- C7: `Read` maps the remote response back onto Terraform state: for every
successfully parsed ID and successful `LinkerGet` response whose model carries
`AuthInfo` and `TargetService`, the encoded state has `Name` and `AppServiceId` from
the parsed ID, `TargetResourceId` the flattened target service, `AuthInfo` the
flattened auth info, and `ClientType` (respectively `VnetSolution`) taken from the
response exactly when the response carries a non-nil `ClientType` (respectively a
non-nil `VNetSolution` with non-nil `Type`) and left as the empty string otherwise. -/
theorem read_maps_response
    (flattenTargetService : TargetServiceBase → String)
    (flattenAuthInfo : AuthInfoValue → List AuthInfoModel)
    (id : ScopedLinkerId) (getWasNotFound : Bool) (model : LinkerResource)
    (authInfo : AuthInfoValue) (targetService : TargetServiceBase)
    (hA : model.Properties.AuthInfo = some authInfo)
    (hT : model.Properties.TargetService = some targetService) :
    ∃ state : AppServiceConnectorResourceModel,
      appServiceConnectorRead flattenTargetService flattenAuthInfo (Except.ok id) none
        getWasNotFound (some model) = ReadOutcome.done (some state) ∧
      state.Name = id.LinkerName ∧
      state.AppServiceId = id.ResourceUri ∧
      state.TargetResourceId = flattenTargetService targetService ∧
      state.AuthInfo = flattenAuthInfo authInfo ∧
      (∀ c, model.Properties.ClientType = some c → state.ClientType = c) ∧
      (model.Properties.ClientType = none → state.ClientType = "") ∧
      (∀ t, model.Properties.VNetSolution = some ⟨some t⟩ → state.VnetSolution = t) ∧
      ((model.Properties.VNetSolution = none ∨ model.Properties.VNetSolution = some ⟨none⟩) →
        state.VnetSolution = "") := by
  simp only [appServiceConnectorRead]
  rw [hA, hT]
  refine ⟨_, rfl, rfl, rfl, rfl, rfl, ?_, ?_, ?_, ?_⟩
  · intro c hc; simp [hc]
  · intro hc; simp [hc]
  · intro t ht; simp [ht]
  · rintro (hv | hv) <;> simp [hv]

/-- C7 (witness): the read-mapping theorem applied at a concrete response model; the
encoded state carries the linker name from the parsed ID. -/
theorem read_maps_response_witness :
    ∃ state : AppServiceConnectorResourceModel,
      appServiceConnectorRead cFlattenTS cFlattenAI
        (Except.ok (NewScopedLinkerID "appId" "conn")) none false (some cRespModel) =
        ReadOutcome.done (some state) ∧ state.Name = "conn" := by
  obtain ⟨state, h⟩ := read_maps_response cFlattenTS cFlattenAI
    (NewScopedLinkerID "appId" "conn") false cRespModel (.base ⟨3⟩)
    (.azureResource ⟨some "target"⟩) rfl rfl
  exact ⟨state, h.1, h.2.1⟩

/-- C10: `Delete` is idempotent with respect to an already-absent remote resource: it
returns the parse error unchanged when the stored ID does not parse; with a parsed ID
it returns success whenever the `LinkerDelete` response was not-found (the error is
swallowed) or `LinkerDelete` succeeded, it returns the wrapped delete error when
`LinkerDelete` failed with a response that is not not-found, and a wrapped delete error
is returned only in that case. -/
theorem delete_swallows_not_found
    (parsed : Except String ScopedLinkerId) (deleteErr : Option String)
    (deleteWasNotFound : Bool) :
    (∀ e, parsed = Except.error e →
      appServiceConnectorDelete parsed deleteErr deleteWasNotFound =
        some (DeleteError.parseError e)) ∧
    (∀ id, parsed = Except.ok id →
      ((deleteWasNotFound = true →
          appServiceConnectorDelete parsed deleteErr deleteWasNotFound = none) ∧
        (deleteErr = none →
          appServiceConnectorDelete parsed deleteErr deleteWasNotFound = none) ∧
        (∀ e, deleteErr = some e → deleteWasNotFound = false →
          appServiceConnectorDelete parsed deleteErr deleteWasNotFound =
            some (DeleteError.deleteError e)) ∧
        (∀ e, appServiceConnectorDelete parsed deleteErr deleteWasNotFound =
            some (DeleteError.deleteError e) →
          deleteErr = some e ∧ deleteWasNotFound = false))) := by
  constructor
  · rintro e rfl; rfl
  · rintro id rfl
    refine ⟨?_, ?_, ?_, ?_⟩
    · rintro rfl; rcases deleteErr with _ | e <;> simp [appServiceConnectorDelete]
    · rintro rfl; rfl
    · rintro e rfl rfl; rfl
    · intro e h
      rcases deleteErr with _ | e2
      · simp [appServiceConnectorDelete] at h
      · cases deleteWasNotFound with
        | false =>
          simp [appServiceConnectorDelete] at h
          exact ⟨by rw [h], rfl⟩
        | true => simp [appServiceConnectorDelete] at h

/-- C10 (witness): the idempotence theorem applied at a concrete parsed ID whose
`LinkerDelete` fails with a not-found response: `Delete` swallows the error. -/
theorem delete_swallows_not_found_witness :
    appServiceConnectorDelete (Except.ok (NewScopedLinkerID "appId" "conn")) (some "gone")
      true = none :=
  ((delete_swallows_not_found (Except.ok (NewScopedLinkerID "appId" "conn")) (some "gone")
    true).2 _ rfl).1 rfl

/-- C8: the declared schema validates user-supplied configuration: `name`,
`app_service_id` and `target_resource_id` are required, force replacement on change and
carry their respective validators (non-empty string, App Service ID, Azure resource
ID); `client_type` is optional, defaults to `none` and its case-sensitive
`StringInSlice` validator accepts exactly the ten client types; `vnet_solution` is
optional, defaults to `privateLink` and its validator accepts exactly
`serviceEndpoint` and `privateLink`; and the modelled validator semantics accept
exactly the listed values (`StringIsNotEmpty` accepts exactly the non-empty
strings). -/
theorem arguments_schema (s : String) :
    Arguments "name" =
      some (.entry ⟨true, false, true, none, some .stringIsNotEmpty⟩) ∧
    Arguments "app_service_id" =
      some (.entry ⟨true, false, true, none, some .appServiceID⟩) ∧
    Arguments "target_resource_id" =
      some (.entry ⟨true, false, true, none, some .validateResourceID⟩) ∧
    Arguments "client_type" =
      some (.entry ⟨false, true, false, some "none",
        some (.stringInSlice ["none", "dotnet", "java", "python", "go", "php", "ruby",
          "django", "nodejs", "springBoot"] false)⟩) ∧
    Arguments "vnet_solution" =
      some (.entry ⟨false, true, false, some "privateLink",
        some (.stringInSlice ["serviceEndpoint", "privateLink"] false)⟩) ∧
    (runStringInSlice ["none", "dotnet", "java", "python", "go", "php", "ruby", "django",
        "nodejs", "springBoot"] false s = true ↔
      s = "none" ∨ s = "dotnet" ∨ s = "java" ∨ s = "python" ∨ s = "go" ∨ s = "php" ∨
      s = "ruby" ∨ s = "django" ∨ s = "nodejs" ∨ s = "springBoot") ∧
    (runStringInSlice ["serviceEndpoint", "privateLink"] false s = true ↔
      s = "serviceEndpoint" ∨ s = "privateLink") ∧
    (runStringIsNotEmpty s = true ↔ s ≠ "") := by
  refine ⟨by decide, by decide, by decide, by decide, by decide, ?_, ?_, ?_⟩
  · simp only [runStringInSlice, List.any_cons, List.any_nil, Bool.false_and, Bool.or_false,
      Bool.or_eq_true, beq_iff_eq]
    exact or_congr eq_comm (or_congr eq_comm (or_congr eq_comm (or_congr eq_comm (or_congr
      eq_comm (or_congr eq_comm (or_congr eq_comm (or_congr eq_comm (or_congr eq_comm
      eq_comm))))))))
  · simp only [runStringInSlice, List.any_cons, List.any_nil, Bool.false_and, Bool.or_false,
      Bool.or_eq_true, beq_iff_eq]
    exact or_congr eq_comm eq_comm
  · by_cases h : s = "" <;> simp [runStringIsNotEmpty, h]

/-- C8 (witness): the schema theorem applied at a concrete candidate string; the `name`
entry is required, forces replacement and validates non-emptiness. -/
theorem arguments_schema_witness :
    Arguments "name" =
      some (.entry ⟨true, false, true, none, some .stringIsNotEmpty⟩) :=
  (arguments_schema "dotnet").1
